import Mathlib

/-!
Shallow embedding of the `media_pipeline` example of the `tonari-actor`
runtime (`src/examples/media_pipeline.rs`).

Each Rust actor's `handle` method is embedded as a pure Lean function from
the actor's state, its `Context` and the message to the updated state, the
list of effects the invocation performed (successful sends, shutdown
requests, console prints) and the handler's outcome.  The outcome of a
fallible `send` call is supplied by an environment `env : Nat → Bool`
mapping a mailbox address to whether a send to it succeeds; the `?`
operator on a failed send maps to `HandlerOutcome.err HandlerError.sendError`,
`bail!` maps to `HandlerOutcome.err (HandlerError.message _)`, and `.expect`
on a failed call maps to `HandlerOutcome.panicked _`.

The runtime core (the `System`, mailboxes and the shutdown protocol) is not
part of this repository's sources; the few facts needed about it are
modelled from the specification and marked as such in their doc comments.
-/

namespace MediaPipeline

/-- A simplistic representation of a MediaFrame, holding a frame counter. -/
inductive MediaFrame
  | video (n : Nat)
  | audio (n : Nat)
deriving DecidableEq

/-- A simplistic representation of an encoded MediaFrame. -/
inductive EncodedMediaFrame
  | video (n : Nat)
  | audio (n : Nat)
deriving DecidableEq

/-- `Addr<T>`: a typed handle on a mailbox, identified by a numeric id. -/
structure Addr (α : Type) where
  id : Nat
deriving DecidableEq

/-- `Recipient<T>`: a type-erased address, still identified by mailbox id. -/
structure Recipient (α : Type) where
  addr : Nat
deriving DecidableEq

/-- `Addr::recipient()`: lossless erasure preserving the mailbox identity. -/
def Addr.recipient {α : Type} (a : Addr α) : Recipient α := ⟨a.id⟩

/-- The per-invocation `Context`, exposing the actor's own address. -/
structure Context (α : Type) where
  myself : Addr α
deriving DecidableEq

/-- Message payloads that can travel through the pipeline. -/
inductive Payload
  | media (f : MediaFrame)
  | encoded (f : EncodedMediaFrame)
  | videoCapture
  | audioCapture
  | unitMsg
deriving DecidableEq

/-- Observable effects of one handler invocation, in program order.
A `send` effect is recorded only for a send that succeeded. -/
inductive Effect
  | send (addr : Nat) (p : Payload)
  | shutdownCall
  | print (s : String)
deriving DecidableEq

/-- Errors a handler may return (`HandlerError`). -/
inductive HandlerError
  | sendError
  | message (s : String)
deriving DecidableEq

/-- Outcome of one handler invocation: normal return `Ok(())`, an error
return, or a panic (only reachable through `.expect`). -/
inductive HandlerOutcome
  | ok
  | err (e : HandlerError)
  | panicked (s : String)
deriving DecidableEq

-- Messages

inductive VideoCaptureMessage
  | capture
deriving DecidableEq

inductive AudioCaptureMessage
  | capture
deriving DecidableEq

-- Plumbing

structure ShutdownActor
deriving DecidableEq

/-- `ShutdownActor::handle`: calls `system_handle.shutdown()` and `.expect`s
its result; `shutdownOk` is the modelled outcome of that call. -/
def ShutdownActor.handle (self : ShutdownActor) (shutdownOk : Bool)
    (_msg : Unit) : ShutdownActor × List Effect × HandlerOutcome :=
  if shutdownOk then
    (self, [Effect.shutdownCall], HandlerOutcome.ok)
  else
    (self, [Effect.shutdownCall],
      HandlerOutcome.panicked "ShutdownActor failed to shutdown system")

-- Egress pipeline

structure VideoCapturer where
  frame_counter : Nat
  next : Recipient MediaFrame
deriving DecidableEq

def VideoCapturer.new (next : Recipient MediaFrame) : VideoCapturer :=
  { frame_counter := 0, next := next }

/-- `VideoCapturer::handle`: send the current frame downstream, increment
the counter, then re-arm by sending `Capture` to its own address. -/
def VideoCapturer.handle (self : VideoCapturer)
    (context : Context VideoCaptureMessage) (env : Nat → Bool)
    (message : VideoCaptureMessage) :
    VideoCapturer × List Effect × HandlerOutcome :=
  match message with
  | VideoCaptureMessage.capture =>
    if env self.next.addr then
      let self' : VideoCapturer :=
        { self with frame_counter := self.frame_counter + 1 }
      if env context.myself.id then
        (self',
         [Effect.send self.next.addr (Payload.media (MediaFrame.video self.frame_counter)),
          Effect.send context.myself.id Payload.videoCapture],
         HandlerOutcome.ok)
      else
        (self',
         [Effect.send self.next.addr (Payload.media (MediaFrame.video self.frame_counter))],
         HandlerOutcome.err HandlerError.sendError)
    else
      (self, [], HandlerOutcome.err HandlerError.sendError)

structure VideoEncoder where
  next : Recipient EncodedMediaFrame
deriving DecidableEq

def VideoEncoder.new (next : Recipient EncodedMediaFrame)
    (_message : String) : VideoEncoder :=
  { next := next }

/-- `VideoEncoder::handle`: encode a video frame; `bail!` on audio frames. -/
def VideoEncoder.handle (self : VideoEncoder) (env : Nat → Bool)
    (message : MediaFrame) : VideoEncoder × List Effect × HandlerOutcome :=
  match message with
  | MediaFrame.video frame_counter =>
    if env self.next.addr then
      (self,
       [Effect.send self.next.addr (Payload.encoded (EncodedMediaFrame.video frame_counter))],
       HandlerOutcome.ok)
    else
      (self, [], HandlerOutcome.err HandlerError.sendError)
  | MediaFrame.audio _ =>
    (self, [],
     HandlerOutcome.err
       (HandlerError.message "Why did you give the VideoEncodeActor an audio MediaFrame?"))

structure AudioCapturer where
  frame_counter : Nat
  next : Recipient MediaFrame
deriving DecidableEq

def AudioCapturer.new (next : Recipient MediaFrame) : AudioCapturer :=
  { frame_counter := 0, next := next }

/-- `AudioCapturer::handle`: send the current frame downstream, increment
the counter, then re-arm by sending `Capture` to its own address. -/
def AudioCapturer.handle (self : AudioCapturer)
    (context : Context AudioCaptureMessage) (env : Nat → Bool)
    (message : AudioCaptureMessage) :
    AudioCapturer × List Effect × HandlerOutcome :=
  match message with
  | AudioCaptureMessage.capture =>
    if env self.next.addr then
      let self' : AudioCapturer :=
        { self with frame_counter := self.frame_counter + 1 }
      if env context.myself.id then
        (self',
         [Effect.send self.next.addr (Payload.media (MediaFrame.audio self.frame_counter)),
          Effect.send context.myself.id Payload.audioCapture],
         HandlerOutcome.ok)
      else
        (self',
         [Effect.send self.next.addr (Payload.media (MediaFrame.audio self.frame_counter))],
         HandlerOutcome.err HandlerError.sendError)
    else
      (self, [], HandlerOutcome.err HandlerError.sendError)

structure AudioEncoder where
  next : Recipient EncodedMediaFrame
deriving DecidableEq

def AudioEncoder.new (next : Recipient EncodedMediaFrame)
    (_message : String) : AudioEncoder :=
  { next := next }

/-- `AudioEncoder::handle`: encode an audio frame; `bail!` on video frames. -/
def AudioEncoder.handle (self : AudioEncoder) (env : Nat → Bool)
    (message : MediaFrame) : AudioEncoder × List Effect × HandlerOutcome :=
  match message with
  | MediaFrame.audio frame_counter =>
    if env self.next.addr then
      (self,
       [Effect.send self.next.addr (Payload.encoded (EncodedMediaFrame.audio frame_counter))],
       HandlerOutcome.ok)
    else
      (self, [], HandlerOutcome.err HandlerError.sendError)
  | MediaFrame.video _ =>
    (self, [],
     HandlerOutcome.err
       (HandlerError.message "Why did you give the AudioEncodeActor a video MediaFrame?"))

structure NetworkSender where
  next : Recipient EncodedMediaFrame
deriving DecidableEq

def NetworkSender.new (next : Recipient EncodedMediaFrame) : NetworkSender :=
  { next := next }

/-- `NetworkSender::handle`: forward the encoded frame unchanged. -/
def NetworkSender.handle (self : NetworkSender) (env : Nat → Bool)
    (message : EncodedMediaFrame) :
    NetworkSender × List Effect × HandlerOutcome :=
  if env self.next.addr then
    (self, [Effect.send self.next.addr (Payload.encoded message)], HandlerOutcome.ok)
  else
    (self, [], HandlerOutcome.err HandlerError.sendError)

-- Ingress pipeline

structure NetworkReceiver where
  audio_next : Recipient EncodedMediaFrame
  video_next : Recipient EncodedMediaFrame
deriving DecidableEq

def NetworkReceiver.new (audio_next video_next : Recipient EncodedMediaFrame) :
    NetworkReceiver :=
  { audio_next := audio_next, video_next := video_next }

/-- `NetworkReceiver::handle`: route the frame by its variant, unchanged. -/
def NetworkReceiver.handle (self : NetworkReceiver) (env : Nat → Bool)
    (message : EncodedMediaFrame) :
    NetworkReceiver × List Effect × HandlerOutcome :=
  match message with
  | EncodedMediaFrame.video _ =>
    if env self.video_next.addr then
      (self, [Effect.send self.video_next.addr (Payload.encoded message)], HandlerOutcome.ok)
    else
      (self, [], HandlerOutcome.err HandlerError.sendError)
  | EncodedMediaFrame.audio _ =>
    if env self.audio_next.addr then
      (self, [Effect.send self.audio_next.addr (Payload.encoded message)], HandlerOutcome.ok)
    else
      (self, [], HandlerOutcome.err HandlerError.sendError)

structure VideoDecoder where
  next : Recipient MediaFrame
deriving DecidableEq

def VideoDecoder.new (next : Recipient MediaFrame) : VideoDecoder :=
  { next := next }

/-- `VideoDecoder::handle`: decode a video frame; `bail!` on audio frames. -/
def VideoDecoder.handle (self : VideoDecoder) (env : Nat → Bool)
    (message : EncodedMediaFrame) :
    VideoDecoder × List Effect × HandlerOutcome :=
  match message with
  | EncodedMediaFrame.video frame_counter =>
    if env self.next.addr then
      (self,
       [Effect.send self.next.addr (Payload.media (MediaFrame.video frame_counter))],
       HandlerOutcome.ok)
    else
      (self, [], HandlerOutcome.err HandlerError.sendError)
  | EncodedMediaFrame.audio _ =>
    (self, [],
     HandlerOutcome.err
       (HandlerError.message "Why did you give the VideoDecodeActor an audio EncodedMediaFrame?"))

structure AudioDecoder where
  next : Recipient MediaFrame
deriving DecidableEq

def AudioDecoder.new (next : Recipient MediaFrame) : AudioDecoder :=
  { next := next }

/-- `AudioDecoder::handle`: decode an audio frame; `bail!` on video frames. -/
def AudioDecoder.handle (self : AudioDecoder) (env : Nat → Bool)
    (message : EncodedMediaFrame) :
    AudioDecoder × List Effect × HandlerOutcome :=
  match message with
  | EncodedMediaFrame.audio frame_counter =>
    if env self.next.addr then
      (self,
       [Effect.send self.next.addr (Payload.media (MediaFrame.audio frame_counter))],
       HandlerOutcome.ok)
    else
      (self, [], HandlerOutcome.err HandlerError.sendError)
  | EncodedMediaFrame.video _ =>
    (self, [],
     HandlerOutcome.err
       (HandlerError.message "Why did you give the AudioDecodeActor a video EncodedMediaFrame?"))

structure AudioPlayback
deriving DecidableEq

def AudioPlayback.new : AudioPlayback := {}

/-- `AudioPlayback::handle`: print the audio frame; `bail!` on video frames. -/
def AudioPlayback.handle (self : AudioPlayback) (message : MediaFrame) :
    AudioPlayback × List Effect × HandlerOutcome :=
  match message with
  | MediaFrame.audio frame_counter =>
    (self, [Effect.print ("Playing back audio frame " ++ toString frame_counter)],
     HandlerOutcome.ok)
  | MediaFrame.video _ =>
    (self, [],
     HandlerOutcome.err
       (HandlerError.message "Why did you give the AudioPlaybackActor a video MediaFrame?"))

structure VideoDisplay
deriving DecidableEq

def VideoDisplay.new : VideoDisplay := {}

/-- `VideoDisplay::handle`: print the video frame; from frame 360 on, request
system shutdown ignoring the result of the call (`let _ = ...shutdown()`);
`bail!` on audio frames.  `shutdownOk` is the ignored result of the
shutdown call. -/
def VideoDisplay.handle (self : VideoDisplay) (shutdownOk : Bool)
    (message : MediaFrame) : VideoDisplay × List Effect × HandlerOutcome :=
  match message with
  | MediaFrame.video frame_counter =>
    if 360 ≤ frame_counter then
      (self,
       [Effect.print ("Display video frame " ++ toString frame_counter),
        Effect.print "We have received 360 video frames, shutting down the actor system!",
        Effect.shutdownCall],
       HandlerOutcome.ok)
    else
      (self, [Effect.print ("Display video frame " ++ toString frame_counter)],
       HandlerOutcome.ok)
  | MediaFrame.audio _ =>
    (self, [],
     HandlerOutcome.err
       (HandlerError.message "Why did you give the VideoDisplayActor an audio MediaFrame?"))

-- The actor's receive loop, for the capturers (the only stateful actors):
-- each environment in `envs` stands for one delivered `Capture` message; the
-- loop stops as soon as a handler invocation does not return `Ok`.

/-- The receive loop of a spawned `VideoCapturer`: handle each delivered
`Capture` message in turn, accumulating effects, stopping on the first
non-`Ok` outcome (the scheduling unit terminates on a handler error). -/
def VideoCapturer.run : VideoCapturer → Context VideoCaptureMessage →
    List (Nat → Bool) → VideoCapturer × List Effect
  | self, _, [] => (self, [])
  | self, ctx, env :: rest =>
    match VideoCapturer.handle self ctx env VideoCaptureMessage.capture with
    | (self', effs, HandlerOutcome.ok) =>
      let tail := VideoCapturer.run self' ctx rest
      (tail.1, effs ++ tail.2)
    | (self', effs, _) => (self', effs)

/-- The receive loop of a spawned `AudioCapturer`, as for `VideoCapturer`. -/
def AudioCapturer.run : AudioCapturer → Context AudioCaptureMessage →
    List (Nat → Bool) → AudioCapturer × List Effect
  | self, _, [] => (self, [])
  | self, ctx, env :: rest =>
    match AudioCapturer.handle self ctx env AudioCaptureMessage.capture with
    | (self', effs, HandlerOutcome.ok) =>
      let tail := AudioCapturer.run self' ctx rest
      (tail.1, effs ++ tail.2)
    | (self', effs, _) => (self', effs)

/-- The media frames successfully sent to mailbox `a`, in order, among a
list of effects. -/
def framesSentTo (a : Nat) : List Effect → List MediaFrame :=
  List.filterMap fun e =>
    match e with
    | Effect.send b (Payload.media f) => if b = a then some f else none
    | _ => none

-- The `main` function's Ctrl-C handler.

/-- The closure installed by `ctrlc::set_handler` in `main`: send a unit
message to the `ShutdownActor`'s address, `.expect`ing the send result. -/
def ctrlcHandler (shutdown_addr : Addr Unit) (env : Nat → Bool) :
    List Effect × HandlerOutcome :=
  if env shutdown_addr.id then
    ([Effect.send shutdown_addr.id Payload.unitMsg], HandlerOutcome.ok)
  else
    ([], HandlerOutcome.panicked "failed to send shutdown message")

-- The System's shutdown protocol.  The runtime core is not part of this
-- repository's sources, so it is modelled from the specification.

/-- Modelled from the spec: the System lifecycle states
`Running → ShuttingDown → Stopped` (the runtime core implementing them is
not in the repository sources). -/
inductive SystemState
  | running
  | shuttingDown
  | stopped
deriving DecidableEq

/-- Modelled from the spec: a shutdown trigger moves `Running` to
`ShuttingDown` and is a no-op in every other state, so multiple triggers
collapse into a single transition (idempotent). -/
def shutdownTransition : SystemState → SystemState
  | SystemState.running => SystemState.shuttingDown
  | s => s

/-- `SystemCallbacks` as registered at `System` construction; only the
presence and text of the preshutdown hook matter here. -/
structure SystemCallbacks where
  preshutdown : Option String
deriving DecidableEq

/-- The callbacks `main` registers via `System::with_callbacks`. -/
def mainSystemCallbacks : SystemCallbacks :=
  { preshutdown := some "The actor system is stopping, this is the preshutdown hook" }

/-- Observable events of the System's shutdown procedure. -/
inductive SysEvent
  | preshutdownCallback
  | closeMailbox (a : Nat)
deriving DecidableEq

/-- Modelled from the spec: the shutdown procedure of a System with
registered callbacks and the given set of actor mailboxes.  From `Running`
it runs the preshutdown callback (if registered) exactly once, then closes
every mailbox, reaching `Stopped`; invoked in any other state it is a
no-op producing no events. -/
def systemShutdown (callbacks : SystemCallbacks) (mailboxes : List Nat) :
    SystemState → SystemState × List SysEvent
  | SystemState.running =>
    (SystemState.stopped,
     (match callbacks.preshutdown with
      | some _ => [SysEvent.preshutdownCallback]
      | none => [])
       ++ mailboxes.map SysEvent.closeMailbox)
  | s => (s, [])

/-- The event trace of shutting down `main`'s System from `Running`. -/
def mainShutdownTrace (mailboxes : List Nat) : List SysEvent :=
  (systemShutdown mainSystemCallbacks mailboxes SystemState.running).2

-- The wiring performed by `main`, in program order.

/-- One actor spawned by `main`: its name, the names of the addresses its
`next` recipients are taken from, and the name of the address `spawn`
returns. -/
structure SpawnRec where
  actorName : String
  deps : List String
  addrName : String
deriving DecidableEq

/-- One wiring step of `main`: create a fresh address (`Addr::default()`),
spawn an actor onto its own scheduling unit, or run an actor on the calling
thread (`prepare(..).with_addr(..).run_and_block()`). -/
inductive WireStep
  | mkAddr (addrName : String)
  | spawnStep (s : SpawnRec)
  | runAndBlockStep (actorName : String) (addrName : String)
deriving DecidableEq

/-- The wiring steps of `main`, transcribed in program order. -/
def mainWiring : List WireStep :=
  [WireStep.spawnStep ⟨"ShutdownActor", [], "shutdown_addr"⟩,
   WireStep.mkAddr "display_addr",
   WireStep.spawnStep ⟨"AudioPlayback", [], "audio_playback_actor"⟩,
   WireStep.spawnStep ⟨"VideoDecoder", ["display_addr"], "video_decode_addr"⟩,
   WireStep.spawnStep ⟨"AudioDecoder", ["audio_playback_actor"], "audio_decode_addr"⟩,
   WireStep.spawnStep
     ⟨"NetworkReceiver", ["audio_decode_addr", "video_decode_addr"], "network_receiver_addr"⟩,
   WireStep.spawnStep ⟨"NetworkSender", ["network_receiver_addr"], "network_sender_addr"⟩,
   WireStep.spawnStep ⟨"AudioEncoder", ["network_sender_addr"], "audio_encode_addr"⟩,
   WireStep.spawnStep ⟨"VideoEncoder", ["network_sender_addr"], "video_encode_addr"⟩,
   WireStep.spawnStep ⟨"AudioCapturer", ["audio_encode_addr"], "audio_capture_addr"⟩,
   WireStep.spawnStep ⟨"VideoCapturer", ["video_encode_addr"], "video_capture_addr"⟩,
   WireStep.runAndBlockStep "VideoDisplay" "display_addr"]

/-- Is this step the `run_and_block` entry point? -/
def isRunAndBlock : WireStep → Bool
  | WireStep.runAndBlockStep _ _ => true
  | _ => false

/-- The names of addresses a wiring step brings into existence. -/
def addrsCreated : WireStep → List String
  | WireStep.mkAddr n => [n]
  | WireStep.spawnStep s => [s.addrName]
  | WireStep.runAndBlockStep _ _ => []

/-- Names of the actors spawned onto their own scheduling units, in order. -/
def spawnedActorNames (steps : List WireStep) : List String :=
  steps.filterMap fun s =>
    match s with
    | WireStep.spawnStep r => some r.actorName
    | _ => none

/-- `wiredBottomUp avail steps`: every spawn among `steps` takes each of its
recipients from an address already existing (in `avail` or created by an
earlier step). -/
def wiredBottomUp : List String → List WireStep → Bool
  | _, [] => true
  | avail, step :: rest =>
    (match step with
     | WireStep.spawnStep s => s.deps.all fun d => avail.contains d
     | _ => true)
      && wiredBottomUp (avail ++ addrsCreated step) rest

-- Theorems

/-- C1: every actor accepting a shared message type (`VideoEncoder`,
`AudioEncoder`, `VideoDecoder`, `AudioDecoder`, `AudioPlayback`,
`VideoDisplay`), handed a message whose variant does not match its expected
logical kind, returns a `HandlerError` (a `bail!` message), leaves its state
unchanged, performs no effects, and does not panic. -/
theorem wrong_variant_returns_handler_error (env : Nat → Bool) (n : Nat)
    (b : Bool) :
    (∀ self : VideoEncoder, VideoEncoder.handle self env (MediaFrame.audio n) =
      (self, [], HandlerOutcome.err
        (HandlerError.message "Why did you give the VideoEncodeActor an audio MediaFrame?")))
  ∧ (∀ self : AudioEncoder, AudioEncoder.handle self env (MediaFrame.video n) =
      (self, [], HandlerOutcome.err
        (HandlerError.message "Why did you give the AudioEncodeActor a video MediaFrame?")))
  ∧ (∀ self : VideoDecoder, VideoDecoder.handle self env (EncodedMediaFrame.audio n) =
      (self, [], HandlerOutcome.err
        (HandlerError.message "Why did you give the VideoDecodeActor an audio EncodedMediaFrame?")))
  ∧ (∀ self : AudioDecoder, AudioDecoder.handle self env (EncodedMediaFrame.video n) =
      (self, [], HandlerOutcome.err
        (HandlerError.message "Why did you give the AudioDecodeActor a video EncodedMediaFrame?")))
  ∧ (∀ self : AudioPlayback, AudioPlayback.handle self (MediaFrame.video n) =
      (self, [], HandlerOutcome.err
        (HandlerError.message "Why did you give the AudioPlaybackActor a video MediaFrame?")))
  ∧ (∀ self : VideoDisplay, VideoDisplay.handle self b (MediaFrame.audio n) =
      (self, [], HandlerOutcome.err
        (HandlerError.message "Why did you give the VideoDisplayActor an audio MediaFrame?"))) :=
  ⟨fun _ => rfl, fun _ => rfl, fun _ => rfl, fun _ => rfl, fun _ => rfl,
   fun _ => rfl⟩

/-- C9: encoding and decoding are mutually inverse on frame counters, and
the network stages forward frames unchanged: `VideoEncoder` maps
`MediaFrame::Video(n)` to `EncodedMediaFrame::Video(n)`, `VideoDecoder`
maps it back, likewise the audio pair, and `NetworkSender` /
`NetworkReceiver` pass any encoded frame through unmodified — so a frame
counter is unchanged end-to-end (stated in the all-sends-succeed
environment). -/
theorem encode_decode_preserve_frame_counter (n : Nat) :
    (∀ self : VideoEncoder,
      VideoEncoder.handle self (fun _ => true) (MediaFrame.video n) =
        (self, [Effect.send self.next.addr (Payload.encoded (EncodedMediaFrame.video n))],
         HandlerOutcome.ok))
  ∧ (∀ self : VideoDecoder,
      VideoDecoder.handle self (fun _ => true) (EncodedMediaFrame.video n) =
        (self, [Effect.send self.next.addr (Payload.media (MediaFrame.video n))],
         HandlerOutcome.ok))
  ∧ (∀ self : AudioEncoder,
      AudioEncoder.handle self (fun _ => true) (MediaFrame.audio n) =
        (self, [Effect.send self.next.addr (Payload.encoded (EncodedMediaFrame.audio n))],
         HandlerOutcome.ok))
  ∧ (∀ self : AudioDecoder,
      AudioDecoder.handle self (fun _ => true) (EncodedMediaFrame.audio n) =
        (self, [Effect.send self.next.addr (Payload.media (MediaFrame.audio n))],
         HandlerOutcome.ok))
  ∧ (∀ (self : NetworkSender) (f : EncodedMediaFrame),
      NetworkSender.handle self (fun _ => true) f =
        (self, [Effect.send self.next.addr (Payload.encoded f)], HandlerOutcome.ok))
  ∧ (∀ self : NetworkReceiver,
      NetworkReceiver.handle self (fun _ => true) (EncodedMediaFrame.video n) =
        (self, [Effect.send self.video_next.addr (Payload.encoded (EncodedMediaFrame.video n))],
         HandlerOutcome.ok)
      ∧ NetworkReceiver.handle self (fun _ => true) (EncodedMediaFrame.audio n) =
        (self, [Effect.send self.audio_next.addr (Payload.encoded (EncodedMediaFrame.audio n))],
         HandlerOutcome.ok)) := by
  refine ⟨fun self => ?_, fun self => ?_, fun self => ?_, fun self => ?_,
    fun self f => ?_, fun self => ⟨?_, ?_⟩⟩ <;>
    first
      | simp [VideoEncoder.handle]
      | simp [VideoDecoder.handle]
      | simp [AudioEncoder.handle]
      | simp [AudioDecoder.handle]
      | (cases f <;> simp [NetworkSender.handle])
      | simp [NetworkReceiver.handle]

/-- C4: in every forwarding stage, a failed downstream send (`SendError`)
is propagated through the `?` operator as the stage's own handler error, so
the stage's scheduling unit terminates when its downstream is gone. -/
theorem send_error_propagates_to_handler_error (env : Nat → Bool) :
    (∀ (self : VideoCapturer) (ctx : Context VideoCaptureMessage),
      env self.next.addr = false →
      (VideoCapturer.handle self ctx env VideoCaptureMessage.capture).2.2 =
        HandlerOutcome.err HandlerError.sendError)
  ∧ (∀ (self : AudioCapturer) (ctx : Context AudioCaptureMessage),
      env self.next.addr = false →
      (AudioCapturer.handle self ctx env AudioCaptureMessage.capture).2.2 =
        HandlerOutcome.err HandlerError.sendError)
  ∧ (∀ (self : VideoEncoder) (n : Nat), env self.next.addr = false →
      (VideoEncoder.handle self env (MediaFrame.video n)).2.2 =
        HandlerOutcome.err HandlerError.sendError)
  ∧ (∀ (self : AudioEncoder) (n : Nat), env self.next.addr = false →
      (AudioEncoder.handle self env (MediaFrame.audio n)).2.2 =
        HandlerOutcome.err HandlerError.sendError)
  ∧ (∀ (self : NetworkSender) (f : EncodedMediaFrame), env self.next.addr = false →
      (NetworkSender.handle self env f).2.2 =
        HandlerOutcome.err HandlerError.sendError)
  ∧ (∀ (self : NetworkReceiver) (n : Nat),
      (env self.video_next.addr = false →
        (NetworkReceiver.handle self env (EncodedMediaFrame.video n)).2.2 =
          HandlerOutcome.err HandlerError.sendError)
      ∧ (env self.audio_next.addr = false →
        (NetworkReceiver.handle self env (EncodedMediaFrame.audio n)).2.2 =
          HandlerOutcome.err HandlerError.sendError))
  ∧ (∀ (self : VideoDecoder) (n : Nat), env self.next.addr = false →
      (VideoDecoder.handle self env (EncodedMediaFrame.video n)).2.2 =
        HandlerOutcome.err HandlerError.sendError)
  ∧ (∀ (self : AudioDecoder) (n : Nat), env self.next.addr = false →
      (AudioDecoder.handle self env (EncodedMediaFrame.audio n)).2.2 =
        HandlerOutcome.err HandlerError.sendError) := by
  refine ⟨fun self ctx h => ?_, fun self ctx h => ?_, fun self n h => ?_,
    fun self n h => ?_, fun self f h => ?_, fun self n => ⟨fun h => ?_, fun h => ?_⟩,
    fun self n h => ?_, fun self n h => ?_⟩ <;>
    simp [VideoCapturer.handle, AudioCapturer.handle, VideoEncoder.handle,
      AudioEncoder.handle, NetworkSender.handle, NetworkReceiver.handle,
      VideoDecoder.handle, AudioDecoder.handle, h]

/-- C4 witness: instantiation at the everything-closed environment. -/
theorem send_error_propagates_to_handler_error_witness :
    (VideoCapturer.handle (VideoCapturer.new ⟨1⟩) ⟨⟨2⟩⟩ (fun _ => false)
        VideoCaptureMessage.capture).2.2 = HandlerOutcome.err HandlerError.sendError
  ∧ (NetworkSender.handle (NetworkSender.new ⟨3⟩) (fun _ => false)
        (EncodedMediaFrame.video 5)).2.2 = HandlerOutcome.err HandlerError.sendError
  ∧ (VideoDecoder.handle (VideoDecoder.new ⟨4⟩) (fun _ => false)
        (EncodedMediaFrame.video 5)).2.2 = HandlerOutcome.err HandlerError.sendError :=
  ⟨(send_error_propagates_to_handler_error (fun _ => false)).1
      (VideoCapturer.new ⟨1⟩) ⟨⟨2⟩⟩ rfl,
   (send_error_propagates_to_handler_error (fun _ => false)).2.2.2.2.1
      (NetworkSender.new ⟨3⟩) (EncodedMediaFrame.video 5) rfl,
   (send_error_propagates_to_handler_error (fun _ => false)).2.2.2.2.2.2.1
      (VideoDecoder.new ⟨4⟩) 5 rfl⟩

/-- C2: a `Capture` message handled successfully by a capturer sends exactly
one frame carrying the current `frame_counter` to its `next` recipient and
then, as its final action, sends exactly one follow-up `Capture` message to
its own address, returning `Ok` (and incrementing the counter). -/
theorem capture_sends_then_rearms_self (env : Nat → Bool) :
    (∀ (self : VideoCapturer) (ctx : Context VideoCaptureMessage),
      (VideoCapturer.handle self ctx env VideoCaptureMessage.capture).2.2 =
        HandlerOutcome.ok →
      VideoCapturer.handle self ctx env VideoCaptureMessage.capture =
        ({ self with frame_counter := self.frame_counter + 1 },
         [Effect.send self.next.addr (Payload.media (MediaFrame.video self.frame_counter)),
          Effect.send ctx.myself.id Payload.videoCapture],
         HandlerOutcome.ok))
  ∧ (∀ (self : AudioCapturer) (ctx : Context AudioCaptureMessage),
      (AudioCapturer.handle self ctx env AudioCaptureMessage.capture).2.2 =
        HandlerOutcome.ok →
      AudioCapturer.handle self ctx env AudioCaptureMessage.capture =
        ({ self with frame_counter := self.frame_counter + 1 },
         [Effect.send self.next.addr (Payload.media (MediaFrame.audio self.frame_counter)),
          Effect.send ctx.myself.id Payload.audioCapture],
         HandlerOutcome.ok)) := by
  constructor
  · intro self ctx h
    cases h1 : env self.next.addr <;> cases h2 : env ctx.myself.id <;>
      simp [VideoCapturer.handle, h1, h2] at h ⊢
  · intro self ctx h
    cases h1 : env self.next.addr <;> cases h2 : env ctx.myself.id <;>
      simp [AudioCapturer.handle, h1, h2] at h ⊢

/-- C2 witness: a concrete successful capture for both capturers. -/
theorem capture_sends_then_rearms_self_witness :
    VideoCapturer.handle (VideoCapturer.new ⟨1⟩) ⟨⟨2⟩⟩ (fun _ => true)
        VideoCaptureMessage.capture =
      ({ VideoCapturer.new ⟨1⟩ with frame_counter := 1 },
       [Effect.send 1 (Payload.media (MediaFrame.video 0)),
        Effect.send 2 Payload.videoCapture],
       HandlerOutcome.ok)
  ∧ AudioCapturer.handle (AudioCapturer.new ⟨3⟩) ⟨⟨4⟩⟩ (fun _ => true)
        AudioCaptureMessage.capture =
      ({ AudioCapturer.new ⟨3⟩ with frame_counter := 1 },
       [Effect.send 3 (Payload.media (MediaFrame.audio 0)),
        Effect.send 4 Payload.audioCapture],
       HandlerOutcome.ok) :=
  ⟨(capture_sends_then_rearms_self (fun _ => true)).1 (VideoCapturer.new ⟨1⟩)
      ⟨⟨2⟩⟩ (by decide),
   (capture_sends_then_rearms_self (fun _ => true)).2 (AudioCapturer.new ⟨3⟩)
      ⟨⟨4⟩⟩ (by decide)⟩

/-- Iterating the shutdown trigger keeps the system in `ShuttingDown`. -/
theorem shutdownTransition_iterate_shuttingDown (k : Nat) :
    Nat.iterate shutdownTransition k SystemState.shuttingDown =
      SystemState.shuttingDown := by
  induction k with
  | zero => rfl
  | succ k ih => rw [Function.iterate_succ_apply]; exact ih

/-- C3: `VideoDisplay` handling `MediaFrame::Video(n)` with `n ≥ 360`
requests system shutdown and returns `Ok` regardless of the shutdown call's
(ignored) result `b`; with `n < 360` it does not request shutdown; and
repeated shutdown triggers collapse into the single
`Running → ShuttingDown` transition (idempotent). -/
theorem display_threshold_triggers_shutdown (self : VideoDisplay) (b : Bool)
    (n : Nat) :
    (360 ≤ n →
      VideoDisplay.handle self b (MediaFrame.video n) =
        (self,
         [Effect.print ("Display video frame " ++ toString n),
          Effect.print "We have received 360 video frames, shutting down the actor system!",
          Effect.shutdownCall],
         HandlerOutcome.ok))
  ∧ (n < 360 →
      VideoDisplay.handle self b (MediaFrame.video n) =
        (self, [Effect.print ("Display video frame " ++ toString n)], HandlerOutcome.ok)
      ∧ Effect.shutdownCall ∉ (VideoDisplay.handle self b (MediaFrame.video n)).2.1)
  ∧ (∀ s : SystemState, shutdownTransition (shutdownTransition s) = shutdownTransition s)
  ∧ (∀ k : Nat,
      Nat.iterate shutdownTransition (k + 1) SystemState.running =
        SystemState.shuttingDown) := by
  refine ⟨fun h => ?_, fun h => ?_, fun s => ?_, fun k => ?_⟩
  · simp [VideoDisplay.handle, h]
  · have h' : ¬ 360 ≤ n := by omega
    constructor <;> simp [VideoDisplay.handle, h']
  · cases s <;> rfl
  · rw [Function.iterate_succ_apply]
    exact shutdownTransition_iterate_shuttingDown k

/-- C3 witness: frames 360 and 5 at concrete shutdown-call results. -/
theorem display_threshold_triggers_shutdown_witness :
    VideoDisplay.handle VideoDisplay.new true (MediaFrame.video 360) =
      (VideoDisplay.new,
       [Effect.print ("Display video frame " ++ toString 360),
        Effect.print "We have received 360 video frames, shutting down the actor system!",
        Effect.shutdownCall],
       HandlerOutcome.ok)
  ∧ Effect.shutdownCall ∉
      (VideoDisplay.handle VideoDisplay.new false (MediaFrame.video 5)).2.1 :=
  ⟨(display_threshold_triggers_shutdown VideoDisplay.new true 360).1 (by decide),
   ((display_threshold_triggers_shutdown VideoDisplay.new false 5).2.1 (by decide)).2⟩

/-- C5 counterexample: when the modelled `system_handle.shutdown()` call
fails, `ShutdownActor`'s handler panics through `.expect` instead of
returning `Ok`, refuting the claim that it returns `Ok` for every message
it receives. -/
theorem shutdown_actor_not_always_ok :
    (ShutdownActor.handle ⟨⟩ false ()).2.2 ≠ HandlerOutcome.ok := by decide

/-- C5 (amended): the Ctrl-C handler sends a unit message to the
`ShutdownActor`'s address (when that send succeeds), and `ShutdownActor`'s
handler always calls `system_handle.shutdown()`; it returns `Ok` whenever
the shutdown call succeeds and panics through `.expect` (rather than
returning) when it fails. -/
theorem ctrlc_sends_unit_and_shutdown_actor_shuts_down (a : Addr Unit)
    (env : Nat → Bool) (h : env a.id = true) :
    ctrlcHandler a env = ([Effect.send a.id Payload.unitMsg], HandlerOutcome.ok)
  ∧ (∀ self : ShutdownActor,
      ShutdownActor.handle self true () = (self, [Effect.shutdownCall], HandlerOutcome.ok))
  ∧ (∀ (self : ShutdownActor) (b : Bool),
      (ShutdownActor.handle self b ()).2.1 = [Effect.shutdownCall])
  ∧ (∀ self : ShutdownActor,
      (ShutdownActor.handle self false ()).2.2 =
        HandlerOutcome.panicked "ShutdownActor failed to shutdown system") := by
  refine ⟨?_, fun self => rfl, fun self b => ?_, fun self => rfl⟩
  · simp [ctrlcHandler, h]
  · cases b <;> rfl

/-- C5 witness: the Ctrl-C handler at a concrete address with the send
succeeding. -/
theorem ctrlc_sends_unit_and_shutdown_actor_shuts_down_witness :
    ctrlcHandler ⟨7⟩ (fun _ => true) =
      ([Effect.send 7 Payload.unitMsg], HandlerOutcome.ok) :=
  (ctrlc_sends_unit_and_shutdown_actor_shuts_down ⟨7⟩ (fun _ => true) rfl).1

/-- C6: shutting down `main`'s System (whose callbacks were registered at
construction through `System::with_callbacks`) runs the preshutdown
callback exactly once, every mailbox close in the trace is preceded by the
callback, and a repeated shutdown performs nothing further (so the callback
runs exactly once per shutdown). -/
theorem preshutdown_runs_once_before_mailboxes_close (ms : List Nat) :
    (mainShutdownTrace ms).count SysEvent.preshutdownCallback = 1
  ∧ (∀ (i a : Nat),
      (mainShutdownTrace ms)[i]? = some (SysEvent.closeMailbox a) →
      ∃ j, j < i ∧ (mainShutdownTrace ms)[j]? = some SysEvent.preshutdownCallback)
  ∧ (systemShutdown mainSystemCallbacks ms
      (systemShutdown mainSystemCallbacks ms SystemState.running).1).2 = [] := by
  have htr : mainShutdownTrace ms =
      SysEvent.preshutdownCallback :: ms.map SysEvent.closeMailbox := rfl
  refine ⟨?_, ?_, rfl⟩
  · rw [htr]
    simp [List.count_cons, List.count_eq_zero, List.mem_map]
  · intro i a h
    cases i with
    | zero =>
      rw [htr] at h
      simp at h
    | succ i' =>
      exact ⟨0, Nat.succ_pos i', by rw [htr]; simp⟩

/-- C6 witness: with one mailbox, the close event at position 1 is preceded
by the preshutdown callback. -/
theorem preshutdown_runs_once_before_mailboxes_close_witness :
    ∃ j, j < 1 ∧ (mainShutdownTrace [7])[j]? = some SysEvent.preshutdownCallback :=
  (preshutdown_runs_once_before_mailboxes_close [7]).2.1 1 7 (by decide)

/-- C7: in `main`, exactly one actor — the `VideoDisplay`, through
`prepare(..).with_addr(..).run_and_block()` — runs its receive loop on the
calling thread, and every other actor is spawned onto an independent
scheduling unit. -/
theorem exactly_one_run_and_block_actor :
    mainWiring.filter isRunAndBlock =
      [WireStep.runAndBlockStep "VideoDisplay" "display_addr"]
  ∧ spawnedActorNames mainWiring =
      ["ShutdownActor", "AudioPlayback", "VideoDecoder", "AudioDecoder",
       "NetworkReceiver", "NetworkSender", "AudioEncoder", "VideoEncoder",
       "AudioCapturer", "VideoCapturer"] :=
  ⟨rfl, rfl⟩

/-- C8: `main` spawns the pipeline bottom-up: every spawned actor's `next`
recipients come from addresses existing before the spawn; the display
address is created by `Addr::default()` before the `VideoDecoder`
forwarding to it is spawned, while the display actor itself only starts
running with the final `run_and_block` step. -/
theorem spawned_bottom_up :
    wiredBottomUp [] mainWiring = true
  ∧ mainWiring.getLast? =
      some (WireStep.runAndBlockStep "VideoDisplay" "display_addr")
  ∧ mainWiring.indexOf (WireStep.mkAddr "display_addr") <
      mainWiring.indexOf
        (WireStep.spawnStep ⟨"VideoDecoder", ["display_addr"], "video_decode_addr"⟩) := by
  refine ⟨?_, ?_, ?_⟩ <;> decide

/-- Invariant of the `VideoCapturer` receive loop: over any run the frames
successfully sent downstream are exactly the consecutive counters starting
at the initial `frame_counter`, and the final counter is the initial one
plus their number. -/
theorem videoCapturer_run_frames (envs : List (Nat → Bool)) :
    ∀ (self : VideoCapturer) (ctx : Context VideoCaptureMessage), ∃ k : Nat,
      (VideoCapturer.run self ctx envs).1 =
        { self with frame_counter := self.frame_counter + k }
      ∧ framesSentTo self.next.addr (VideoCapturer.run self ctx envs).2 =
        (List.range' self.frame_counter k).map MediaFrame.video := by
  induction envs with
  | nil =>
    intro self ctx
    exact ⟨0, by simp [VideoCapturer.run], by simp [VideoCapturer.run, framesSentTo]⟩
  | cons env rest ih =>
    intro self ctx
    cases h1 : env self.next.addr with
    | false =>
      refine ⟨0, ?_, ?_⟩ <;>
        simp [VideoCapturer.run, VideoCapturer.handle, h1, framesSentTo]
    | true =>
      cases h2 : env ctx.myself.id with
      | false =>
        refine ⟨1, ?_, ?_⟩ <;>
          simp [VideoCapturer.run, VideoCapturer.handle, h1, h2, framesSentTo,
            List.range']
      | true =>
        obtain ⟨k, hst, hfr⟩ :=
          ih { self with frame_counter := self.frame_counter + 1 } ctx
        refine ⟨k + 1, ?_, ?_⟩
        · have harith : self.frame_counter + 1 + k = self.frame_counter + (k + 1) := by
            omega
          simp only [VideoCapturer.run, VideoCapturer.handle, h1, h2, if_true]
          rw [hst]
          simp [harith]
        · simp only [VideoCapturer.run, VideoCapturer.handle, h1, h2, if_true]
          rw [List.range'_succ, List.map_cons]
          simp only [framesSentTo, List.filterMap_append] at hfr ⊢
          rw [hfr]
          simp

/-- Invariant of the `AudioCapturer` receive loop, as for `VideoCapturer`. -/
theorem audioCapturer_run_frames (envs : List (Nat → Bool)) :
    ∀ (self : AudioCapturer) (ctx : Context AudioCaptureMessage), ∃ k : Nat,
      (AudioCapturer.run self ctx envs).1 =
        { self with frame_counter := self.frame_counter + k }
      ∧ framesSentTo self.next.addr (AudioCapturer.run self ctx envs).2 =
        (List.range' self.frame_counter k).map MediaFrame.audio := by
  induction envs with
  | nil =>
    intro self ctx
    exact ⟨0, by simp [AudioCapturer.run], by simp [AudioCapturer.run, framesSentTo]⟩
  | cons env rest ih =>
    intro self ctx
    cases h1 : env self.next.addr with
    | false =>
      refine ⟨0, ?_, ?_⟩ <;>
        simp [AudioCapturer.run, AudioCapturer.handle, h1, framesSentTo]
    | true =>
      cases h2 : env ctx.myself.id with
      | false =>
        refine ⟨1, ?_, ?_⟩ <;>
          simp [AudioCapturer.run, AudioCapturer.handle, h1, h2, framesSentTo,
            List.range']
      | true =>
        obtain ⟨k, hst, hfr⟩ :=
          ih { self with frame_counter := self.frame_counter + 1 } ctx
        refine ⟨k + 1, ?_, ?_⟩
        · have harith : self.frame_counter + 1 + k = self.frame_counter + (k + 1) := by
            omega
          simp only [AudioCapturer.run, AudioCapturer.handle, h1, h2, if_true]
          rw [hst]
          simp [harith]
        · simp only [AudioCapturer.run, AudioCapturer.handle, h1, h2, if_true]
          rw [List.range'_succ, List.map_cons]
          simp only [framesSentTo, List.filterMap_append] at hfr ⊢
          rw [hfr]
          simp

/-- C10: starting from a fresh capturer (`frame_counter = 0`), after any
sequence of handled `Capture` messages the frames sent downstream are
exactly `0, 1, 2, ...` with no gaps or repeats, and their number equals the
final `frame_counter` — the counter counts the successfully sent frames. -/
theorem capturers_emit_consecutive_counters (next : Recipient MediaFrame)
    (ctxV : Context VideoCaptureMessage) (ctxA : Context AudioCaptureMessage)
    (envsV envsA : List (Nat → Bool)) :
    framesSentTo next.addr (VideoCapturer.run (VideoCapturer.new next) ctxV envsV).2 =
      (List.range
        (VideoCapturer.run (VideoCapturer.new next) ctxV envsV).1.frame_counter).map
        MediaFrame.video
  ∧ framesSentTo next.addr (AudioCapturer.run (AudioCapturer.new next) ctxA envsA).2 =
      (List.range
        (AudioCapturer.run (AudioCapturer.new next) ctxA envsA).1.frame_counter).map
        MediaFrame.audio := by
  constructor
  · obtain ⟨k, hst, hfr⟩ := videoCapturer_run_frames envsV (VideoCapturer.new next) ctxV
    rw [hst]
    simp only [VideoCapturer.new] at hfr ⊢
    rw [hfr, List.range_eq_range']
    simp
  · obtain ⟨k, hst, hfr⟩ := audioCapturer_run_frames envsA (AudioCapturer.new next) ctxA
    rw [hst]
    simp only [AudioCapturer.new] at hfr ⊢
    rw [hfr, List.range_eq_range']
    simp

end MediaPipeline
